import Mathlib

/-!
Shallow embedding of the ATS resume-scoring pipeline
(`app/services/perfect_analysis_engine.py` and the checker modules it
orchestrates), together with theorems about the scoring invariants.

External libraries used by the Python code (dateutil parsing, TF-IDF,
sentence embeddings, textstat, spaCy, PyMuPDF/python-docx extraction)
are modelled as abstract inputs: the value each library returns is a
parameter of the corresponding Lean function, and every rule that the
repository's own code applies to that value is translated literally.
-/

/-! ## String helpers (models of the Python `str` operations used) -/

/-- Model of Python `str.lower()` (ASCII case folding, which is all the
source vocabularies need). -/
def lowerStr (s : String) : String := String.mk (s.data.map Char.toLower)

/-- Does `cs` start with `needle`? -/
def startsWithL : List Char → List Char → Bool
  | [], _ => true
  | _ :: _, [] => false
  | c :: cs, d :: ds => c = d && startsWithL cs ds

/-- Does `needle` occur inside the second list? -/
def containsL (needle : List Char) : List Char → Bool
  | [] => startsWithL needle []
  | c :: cs => startsWithL needle (c :: cs) || containsL needle cs

/-- Model of the Python substring test `needle in hay`. -/
def containsSub (hay needle : String) : Bool := containsL needle.data hay.data

/-- Model of Python `str.strip()`: drop leading and trailing whitespace. -/
def stripStr (s : String) : String :=
  String.mk (((s.data.dropWhile Char.isWhitespace).reverse.dropWhile Char.isWhitespace).reverse)

/-- Helper for `wordsOf`: split on runs of whitespace, accumulator holds the
current word reversed. -/
def wordsAux (acc : List Char) : List Char → List String
  | [] => if acc.isEmpty then [] else [String.mk acc.reverse]
  | c :: cs =>
    if c.isWhitespace then
      if acc.isEmpty then wordsAux [] cs else String.mk acc.reverse :: wordsAux [] cs
    else wordsAux (c :: acc) cs

/-- Model of Python `str.split()` with no separator: whitespace-delimited
words, empty strings dropped. -/
def wordsOf (s : String) : List String := wordsAux [] s.data

/-- First whitespace-delimited word of a string, `""` if there is none
(models `bullet.strip().split()[0] if bullet.strip() else ''`). -/
def firstWord (s : String) : String :=
  match wordsOf s with
  | [] => ""
  | w :: _ => w

/-! ## Python-style rounding and number formatting -/

/-- Round to the nearest integer, ties to even: the rounding CPython's
`round` performs (modelled on exact rationals; binary-float representation
noise is ignored). -/
def roundHalfEven (x : ℚ) : ℤ :=
  if x - (⌊x⌋ : ℚ) < 1/2 then ⌊x⌋
  else if 1/2 < x - (⌊x⌋ : ℚ) then ⌊x⌋ + 1
  else if ⌊x⌋ % 2 = 0 then ⌊x⌋ else ⌊x⌋ + 1

/-- Model of Python `round(x, 1)`. -/
def pyRound1 (x : ℚ) : ℚ := (roundHalfEven (x * 10) : ℚ) / 10

/-- Model of the Python format `f"{x:.0f}"` for the non-negative
percentages the checkers print. -/
def fmt0 (x : ℚ) : String := toString (roundHalfEven x)

/-- Model of the Python format `f"{x:.1f}"` for non-negative `x`
(total years of experience). -/
def fmt1 (x : ℚ) : String :=
  let n := roundHalfEven (x * 10)
  toString (n / 10) ++ "." ++ toString (n % 10)

/-! ## Dates (`ExperienceChecker._parse_date` and friends) -/

/-- The (year, month, day) part of a Python `datetime` — the only fields
the experience checker's arithmetic and ordering use. -/
structure PyDate where
  year : ℤ
  month : ℤ
  day : ℤ
deriving DecidableEq, Repr

/-- Python `datetime` comparison restricted to (year, month, day). -/
def dateLE (a b : PyDate) : Bool :=
  a.year < b.year ||
    (a.year = b.year && (a.month < b.month || (a.month = b.month && a.day ≤ b.day)))

/-- Model of `ExperienceChecker._parse_date`.  `oracle` abstracts
`dateutil.parser.parse(s, fuzzy=True)`: `some d` when dateutil parses the
string to the datetime `d`, `none` when it raises (the `except` branch
returning Python `None`).  Empty strings and `"present"` (any case) are
mapped to `now` by the source itself before dateutil is consulted. -/
def parseDate (oracle : String → Option PyDate) (now : PyDate) (s : String) : Option PyDate :=
  if s = "" ∨ lowerStr s = "present" then some now else oracle s

/-- Month difference `(b.year - a.year) * 12 + (b.month - a.month)` used by
both the gap check and the total-years computation. -/
def monthsBetween (a b : PyDate) : ℤ := (b.year - a.year) * 12 + (b.month - a.month)

/-- One entry of the `work_history` list handed to `ExperienceChecker`. -/
structure Job where
  title : String
  company : String
  start_date : String
  end_date : String
deriving DecidableEq, Repr

/-- Stable insertion into a sorted list (used to model Python's stable
`sorted`). -/
def insertSorted (le : α → α → Bool) (x : α) : List α → List α
  | [] => [x]
  | y :: ys => if le x y then x :: y :: ys else y :: insertSorted le x ys

/-- Stable sort: the model of Python's `sorted` (Timsort is stable; so is
insertion sort when `le` holds between equal keys). -/
def sortStable (le : α → α → Bool) : List α → List α
  | [] => []
  | x :: xs => insertSorted le x (sortStable le xs)

/-- Sort key for `check_employment_gaps`: the parsed start date.  The
`getD` default is never used on the code path that sorts (Python raises
first; see `checkEmploymentGaps`). -/
def startKey (oracle : String → Option PyDate) (now : PyDate) (j : Job) : PyDate :=
  (parseDate oracle now j.start_date).getD ⟨0, 0, 0⟩

/-! ## `ExperienceChecker` -/

/-- The date strings collected by `check_date_consistency` (non-empty
start/end strings in job order). -/
def dateStrings (wh : List Job) : List String :=
  (wh.map fun j =>
    (if j.start_date ≠ "" then [j.start_date] else []) ++
      (if j.end_date ≠ "" then [j.end_date] else [])).flatten

/-- Word character of the regex class `\w` (ASCII fragment). -/
def isWordChar (c : Char) : Bool := c.isAlphanum || c = '_'

/-- Full match of `^\d{2}/\d{4}$`. -/
def patMMYYYY (cs : List Char) : Bool :=
  match cs with
  | [a, b, s, c, d, e, f] =>
    a.isDigit && b.isDigit && s = '/' && c.isDigit && d.isDigit && e.isDigit && f.isDigit
  | _ => false

/-- Full match of `^\w{3} \d{4}$`. -/
def patMonYYYY (cs : List Char) : Bool :=
  match cs with
  | [a, b, c, s, d, e, f, g] =>
    isWordChar a && isWordChar b && isWordChar c && s = ' ' &&
      d.isDigit && e.isDigit && f.isDigit && g.isDigit
  | _ => false

/-- Full match of `^\w+ \d{4}$`. -/
def patMonthYYYY (cs : List Char) : Bool :=
  decide (6 ≤ cs.length) &&
    !(cs.take (cs.length - 5)).isEmpty &&
    (cs.take (cs.length - 5)).all isWordChar &&
    decide (cs.get? (cs.length - 5) = some ' ') &&
    (cs.drop (cs.length - 4)).all Char.isDigit

/-- Full match of `^\d{4}$`. -/
def patYYYY (cs : List Char) : Bool :=
  decide (cs.length = 4) && cs.all Char.isDigit

/-- Index (into `DATE_PATTERNS`) of the first pattern a date string
matches, as in `check_date_consistency`. -/
def datePattern (s : String) : Option ℕ :=
  if patMMYYYY s.data then some 0
  else if patMonYYYY s.data then some 1
  else if patMonthYYYY s.data then some 2
  else if patYYYY s.data then some 3
  else none

/-- Does `s` match `DATE_PATTERNS[p]`? -/
def matchesPattern (p : ℕ) (s : String) : Bool :=
  match p with
  | 0 => patMMYYYY s.data
  | 1 => patMonYYYY s.data
  | 2 => patMonthYYYY s.data
  | _ => patYYYY s.data

/-- Model of `ExperienceChecker.check_date_consistency` (5 points). -/
def checkDateConsistency (wh : List Job) : ℚ × List String :=
  if wh = [] then (5, [])
  else
    match dateStrings wh with
    | [] => (5, [])
    | d0 :: rest =>
      match datePattern d0 with
      | none => (max 0 (5 : ℚ), [])
      | some p =>
        if rest.any fun d => !matchesPattern p d then
          (max 0 (5 - 3 : ℚ), ["Inconsistent date formatting - use same format throughout"])
        else (max 0 (5 : ℚ), [])

/-- The list of `> 6`-month gaps collected by `check_employment_gaps` from
the (already sorted) history: for each consecutive pair, the months between
one job's end and the next job's start, kept when both dates parse and the
gap exceeds six months. -/
def gapList (oracle : String → Option PyDate) (now : PyDate) (sorted : List Job) : List ℤ :=
  (sorted.zip sorted.tail).filterMap fun p =>
    match parseDate oracle now p.1.end_date, parseDate oracle now p.2.start_date with
    | some e, some ns => if 6 < monthsBetween e ns then some (monthsBetween e ns) else none
    | _, _ => none

/-- The work history sorted by parsed start date
(`sorted(work_history, key=lambda x: self._parse_date(x.get('start_date', '')))`). -/
def sortedByStart (oracle : String → Option PyDate) (now : PyDate) (wh : List Job) : List Job :=
  sortStable (fun a b => dateLE (startKey oracle now a) (startKey oracle now b)) wh

/-- The number of `> 6`-month gaps `check_employment_gaps` finds. -/
def gapCount (oracle : String → Option PyDate) (now : PyDate) (wh : List Job) : ℕ :=
  (gapList oracle now (sortedByStart oracle now wh)).length

/-- Model of `ExperienceChecker.check_employment_gaps` (10 points).  When
at least two jobs are present and some start date fails to parse,
`sorted(..., key=_parse_date(...))` compares a Python `None` key and
raises `TypeError`; that abort is modelled by `Except.error`. -/
def checkEmploymentGaps (oracle : String → Option PyDate) (now : PyDate) (wh : List Job) :
    Except String (ℚ × List String) :=
  if wh.length < 2 then .ok (10, [])
  else if wh.any fun j => (parseDate oracle now j.start_date).isNone then
    .error "TypeError: NoneType sort key is unorderable"
  else
    let gaps := gapList oracle now (sortedByStart oracle now wh)
    if 0 < gaps.length then
      .ok (max 0 ((10 : ℚ) - ((min 10 (gaps.length * 3) : ℕ) : ℚ)),
        [toString gaps.length ++ " employment gap(s) > 6 months detected"])
    else .ok (max 0 (10 : ℚ), [])

/-- Model of `ExperienceChecker._calculate_total_years`: months summed over
jobs where both dates parse (unparseable dates contribute 0), divided by 12. -/
def calculateTotalYears (oracle : String → Option PyDate) (now : PyDate) (wh : List Job) : ℚ :=
  ((wh.foldl (fun (acc : ℤ) j =>
    match parseDate oracle now j.start_date, parseDate oracle now j.end_date with
    | some s, some e => acc + max 0 (monthsBetween s e)
    | _, _ => acc) 0 : ℤ) : ℚ) / 12

/-- The `companies` dict of `check_career_progression`: company →
titles listed in job order, companies in first-appearance order, jobs with
falsy (empty) company skipped. -/
def companyTitles (wh : List Job) : List (String × List String) :=
  wh.foldl (fun acc j =>
    if j.company = "" then acc
    else if acc.any fun p => p.1 = j.company then
      acc.map fun p => if p.1 = j.company then (p.1, p.2 ++ [j.title]) else p
    else acc ++ [(j.company, [j.title])]) []

/-- The seniority keyword vocabulary of `check_career_progression`. -/
def SENIORITY_KEYWORDS : List String :=
  ["junior", "senior", "lead", "principal", "manager", "director"]

/-- Model of `ExperienceChecker.check_career_progression` (5 points,
clamped to [0,10]). -/
def checkCareerProgression (oracle : String → Option PyDate) (now : PyDate) (wh : List Job) :
    ℚ × List String :=
  if wh = [] then (0, ["No work experience listed"])
  else
    let ty := calculateTotalYears oracle now wh
    let s1 : ℚ × List String :=
      if ty < 2 then (5 - 2, ["Limited experience (" ++ fmt1 ty ++ " years)"]) else (5, [])
    let promotions := (companyTitles wh).countP fun p => 1 < p.2.length
    let s2 : ℚ × List String :=
      if 0 < promotions then
        (s1.1 + 2, s1.2 ++ ["Career progression: " ++ toString promotions ++ " promotion(s) detected"])
      else s1
    let hasProgression := wh.any fun j =>
      SENIORITY_KEYWORDS.any fun kw => containsSub (lowerStr j.title) kw
    let s3 : ℚ × List String :=
      if !hasProgression ∧ 2 < wh.length then
        (s2.1 - 1, s2.2 ++ ["No clear seniority progression in titles"])
      else s2
    (min 10 (max 0 s3.1), s3.2)

/-! ## `ReadabilityChecker` -/

/-- Model of `ReadabilityChecker.check_readability` (10 points).  `flesch`
abstracts `textstat.flesch_reading_ease(text)`; `none` is the exception
branch (neutral 7). -/
def checkReadability (flesch : Option ℚ) : ℚ × List String :=
  match flesch with
  | none => (7, [])
  | some f =>
    if 60 ≤ f ∧ f ≤ 80 then (10, [])
    else if f < 60 then (6, ["Consider simplifying complex sentences"])
    else (8, [])

/-- The action-verb vocabulary of `ReadabilityChecker`. -/
def ACTION_VERBS : List String :=
  ["led", "managed", "developed", "created", "implemented", "designed",
   "built", "launched", "increased", "improved", "reduced", "achieved",
   "delivered", "executed", "established", "optimized", "streamlined",
   "coordinated", "directed", "spearheaded", "initiated", "drove"]

/-- The buzzword vocabulary of `ReadabilityChecker` (in source order). -/
def BUZZWORDS : List String :=
  ["team player", "hardworking", "go-getter", "synergy", "leverage",
   "think outside the box", "results-driven", "detail-oriented",
   "self-starter", "motivated", "passionate", "dynamic"]

/-- Model of `ReadabilityChecker.check_professional_language` (10 points). -/
def checkProfessionalLanguage (text : String) (bullets : List String) : ℚ × List String :=
  let s1 : ℚ × List String :=
    if bullets = [] then (7, [])
    else
      let verbCount := bullets.countP fun b => ACTION_VERBS.contains (lowerStr (firstWord b))
      let pct : ℚ := (verbCount : ℚ) / bullets.length
      if 4/5 ≤ pct then (10, [])
      else if 1/2 ≤ pct then (8, [])
      else if 3/10 ≤ pct then (7, [])
      else (6, ["Use more action verbs (currently " ++ fmt0 (pct * 100) ++ "%)"])
  let found := BUZZWORDS.filter fun bw => containsSub (lowerStr text) bw
  let s2 : ℚ × List String :=
    if 3 < found.length then
      (s1.1 - 1, s1.2 ++ ["Reduce buzzwords: " ++ String.intercalate ", " (found.take 2)])
    else s1
  (max 0 s2.1, s2.2)

/-! ## `ImpactChecker` -/

/-- The experience-evidence vocabulary of `check_quantified_achievements`. -/
def EXPERIENCE_WORDS : List String :=
  ["developed", "created", "implemented", "managed", "led", "designed",
   "built", "worked", "responsible"]

/-- Model of `ImpactChecker.check_quantified_achievements` (10 points).
`metricsFound` abstracts the total count delivered by the regex families
plus the optional spaCy matcher pass. -/
def checkQuantifiedAchievements (metricsFound : ℕ) (text : String) : ℚ × List String :=
  if text = "" then (0, ["No experience section to analyze"])
  else
    let hasExperience :=
      100 < text.length ∧ EXPERIENCE_WORDS.any fun w => containsSub (lowerStr text) w
    let score : ℚ :=
      if 5 ≤ metricsFound then 10
      else if 3 ≤ metricsFound then 8
      else if 1 ≤ metricsFound then 6
      else if hasExperience then 5
      else 0
    let fb :=
      if metricsFound = 0 then ["Add quantified achievements (%, $, numbers)"]
      else if metricsFound < 3 then
        [toString metricsFound ++ " metric(s) found - add more for stronger impact"]
      else ["Strong quantification: " ++ toString metricsFound ++ " metrics found"]
    (score, fb)

/-- Model of `ImpactChecker.check_online_presence` (5 points). -/
def checkOnlinePresence (contact : String) : ℚ × List String :=
  if contact = "" then (0, [])
  else
    let cl := lowerStr contact
    let s1 : ℚ × List String :=
      if containsSub cl "linkedin.com" then (2, ["LinkedIn profile included"])
      else (0, ["Add LinkedIn profile URL"])
    let s2 : ℚ × List String :=
      if containsSub cl "github.com" then (3, ["GitHub profile included"])
      else if containsSub cl "portfolio" ∨ containsSub cl "website" ∨ containsSub cl "blog" then
        (2, ["Portfolio/website included"])
      else (0, ["Consider adding GitHub or portfolio link"])
    (s1.1 + s2.1, s1.2 ++ s2.2)

/-! ## `ml_core.experience_parser` -/

/-- Model of `experience_parser.quantify_impact` (0–100).  `matches`
abstracts the total count over the five regex families (an empty text has
no matches, so the `if not text` early return is subsumed by the 0 band). -/
def quantifyImpact (cnt : ℕ) : ℚ :=
  if 5 ≤ cnt then 100
  else if 3 ≤ cnt then 75
  else if 1 ≤ cnt then 50
  else 0

/-- Junior keywords of `experience_parser.detect_progression`. -/
def JUNIOR_KEYWORDS : List String := ["junior", "associate", "intern", "trainee", "entry"]

/-- Mid-level keywords of `experience_parser.detect_progression`. -/
def MID_KEYWORDS : List String := ["developer", "engineer", "analyst", "consultant"]

/-- Senior keywords of `experience_parser.detect_progression`. -/
def SENIOR_KEYWORDS : List String :=
  ["senior", "lead", "principal", "architect", "manager", "director", "head"]

/-- Seniority level assigned to a title by `detect_progression`. -/
def titleLevel (title : String) : ℕ :=
  let t := lowerStr title
  if SENIOR_KEYWORDS.any fun k => containsSub t k then 3
  else if MID_KEYWORDS.any fun k => containsSub t k then 2
  else if JUNIOR_KEYWORDS.any fun k => containsSub t k then 1
  else 2

/-- Model of `experience_parser.detect_progression` (0–100). -/
def detectProgression (blocks : List Job) : ℚ :=
  match blocks with
  | [] => 0
  | [_] => 0
  | b :: rest =>
    let levels := (b :: rest).map fun e => titleLevel e.title
    let l0 := titleLevel b.title
    let lastL := levels.getLastD 0
    if l0 < lastL then 80
    else if lastL = l0 ∧ l0 < levels.foldl max 0 then 60
    else if levels.all fun l => l = l0 then 40
    else 20

/-! ## `JDAlignmentChecker` -/

/-- The `skill_details` dict assembled by `check_keyword_alignment`. -/
structure SkillDetails where
  matched : List String
  missing : List String
  matched_technical : List String
  matched_soft : List String
  missing_technical : List String
  missing_soft : List String
deriving DecidableEq, Repr

/-- The empty `skill_details` dict. -/
def emptySkillDetails : SkillDetails := ⟨[], [], [], [], [], []⟩

/-- Model of `JDAlignmentChecker.check_keyword_alignment` (15 points).
`isTech` and `isSoft` abstract the fixed-vocabulary classifiers
`is_valid_tech` / `is_soft_skill`; `jdTerms` abstracts the TF-IDF top
terms fitted on [jd, resume] (`none` is the `except` branch: score 7.5,
feedback and details left at their initial empty values). -/
def checkKeywordAlignment (isTech isSoft : String → Bool) (jdTerms : Option (List String))
    (resume jd : String) : ℚ × List String × SkillDetails :=
  if jd = "" ∨ resume = "" then (15, [], emptySkillDetails)
  else
    match jdTerms with
    | none => (15/2, [], emptySkillDetails)
    | some terms =>
      let rl := lowerStr resume
      let matched := terms.filter fun t => containsSub rl (lowerStr t)
      let missing := terms.filter fun t => !containsSub rl (lowerStr t)
      let matchedTech := (matched.filter isTech).take 15
      let matchedSoft := (matched.filter isSoft).take 10
      let missingTech := (missing.filter isTech).take 10
      let missingSoft := (missing.filter isSoft).take 5
      let details : SkillDetails :=
        ⟨matched.take 15, missing.take 10, matchedTech, matchedSoft, missingTech, missingSoft⟩
      let matchRate : ℚ := if terms = [] then 0 else (matched.length : ℚ) / terms.length
      let totalTech := matchedTech.length + missingTech.length
      let techRate : ℚ := if 0 < totalTech then (matchedTech.length : ℚ) / totalTech else 1
      if 3 ≤ totalTech ∧ techRate < 2/5 then
        (matchRate * 15 * (1/5),
         ["CRITICAL MISMATCH: Only " ++ toString matchedTech.length ++ "/" ++
            toString totalTech ++ " technical skills matched"], details)
      else if 3 ≤ totalTech ∧ techRate < 3/5 then
        (matchRate * 15 * (2/5),
         ["Major gap: Missing " ++ toString missingTech.length ++ " key technical skills"],
         details)
      else if techRate < 4/5 then
        (matchRate * 15 * (7/10),
         ["Missing " ++ toString missingTech.length ++ " technical skills"], details)
      else
        (matchRate * 15,
         if 4/5 ≤ matchRate then
           ["Excellent match: " ++ toString matchedTech.length ++ " technical skills"]
         else [], details)

/-- Model of `JDAlignmentChecker.check_skill_context` (5 points). -/
def checkSkillContext (skills : List String) (experienceText : String) : ℚ × List String :=
  if skills = [] then (0, ["No skills listed"])
  else
    let el := lowerStr experienceText
    let contextual := skills.filter fun skill =>
      containsSub el (lowerStr skill) ∨
        (wordsOf (lowerStr skill)).any fun w => containsSub el w
    let rate : ℚ := (contextual.length : ℚ) / skills.length
    let score : ℚ :=
      if 7/10 ≤ rate then 5
      else if 1/2 ≤ rate then 4
      else if 3/10 ≤ rate then 7/2
      else 5/2
    let fb :=
      if rate < 3/10 then
        ["Only " ++ toString contextual.length ++ "/" ++ toString skills.length ++
          " skills demonstrated in experience"]
      else if rate < 3/5 then
        ["Fair skill context: " ++ toString contextual.length ++ "/" ++
          toString skills.length ++ " skills shown"]
      else
        ["Strong skill context: " ++ toString contextual.length ++ "/" ++
          toString skills.length ++ " skills demonstrated"]
    (score, fb)

/-- Stage 2 of `_kb_enhanced_semantic_fit`: similarity scaling with the
critical-match-rate dependent multiplier.  `sim` abstracts the S-BERT
cosine similarity; `none` is the embedding `except` branch (fallback 5.0). -/
def kbStage2 (cmr : ℚ) (sim : Option ℚ) : ℚ × List String :=
  match sim with
  | none => (5, ["Semantic analysis failed"])
  | some s =>
    let score : ℚ :=
      if 3/5 ≤ cmr then s * 20 * min (6/5) (4/5 + cmr * (2/5))
      else if 7/20 ≤ cmr then s * 20 * max (7/10) (cmr + 3/10)
      else s * 20 * (1/2)
    let fb :=
      if 13/20 ≤ s ∧ 1/2 ≤ cmr then
        ["Strong match (" ++ fmt0 (s * 100) ++ "% semantic, " ++ fmt0 (cmr * 100) ++ "% keywords)"]
      else if 1/2 ≤ s ∧ 7/20 ≤ cmr then
        ["Good match (" ++ fmt0 (s * 100) ++ "% semantic, " ++ fmt0 (cmr * 100) ++ "% keywords)"]
      else if cmr < 3/10 then
        ["Weak match (" ++ fmt0 (s * 100) ++ "%) - wrong role fit"]
      else
        ["Moderate match (" ++ fmt0 (s * 100) ++ "% semantic, " ++ fmt0 (cmr * 100) ++ "% keywords)"]
    (score, fb)

/-- Model of `JDAlignmentChecker._kb_enhanced_semantic_fit`.
`criticalTerms` abstracts the JD's top-10 TF-IDF terms (`none` is the
TF-IDF `except` branch, which keeps the neutral rate 0.5 and proceeds). -/
def kbSemanticFit (criticalTerms : Option (List String)) (sim : Option ℚ) (resume : String) :
    ℚ × List String :=
  let rl := lowerStr resume
  match criticalTerms with
  | some ts =>
    let found := (ts.filter fun t => containsSub rl (lowerStr t)).length
    let cmr : ℚ := if ts = [] then 1/2 else (found : ℚ) / ts.length
    if cmr < 1/4 then
      let missingTerms := (ts.take 5).filter fun t => !containsSub rl (lowerStr t)
      (0 + cmr * 10,
       ["Critical mismatch - missing: " ++ String.intercalate ", " missingTerms])
    else kbStage2 cmr sim
  | none => kbStage2 (1/2) sim

/-- Model of `JDAlignmentChecker._direct_semantic_fit` (S-BERT fallback
path without the knowledge base). -/
def directSemanticFit (sim : ℚ) : ℚ × List String :=
  (sim * 20,
   if 7/10 ≤ sim then ["Strong semantic match (" ++ fmt0 (sim * 100) ++ "%)"]
   else if sim < 1/2 then ["Low job-fit (" ++ fmt0 (sim * 100) ++ "%) - tailor resume to JD"]
   else [])

/-- Model of `JDAlignmentChecker.check_semantic_fit` (20 points).  On the
direct path a `none` similarity is the embedding exception, caught by the
outer handler (score 5.0). -/
def checkSemanticFit (useKB : Bool) (criticalTerms : Option (List String)) (sim : Option ℚ)
    (resume jd : String) : ℚ × List String :=
  if resume = "" then (0, ["Invalid resume text"])
  else if jd = "" then (20, [])
  else if useKB then kbSemanticFit criticalTerms sim resume
  else
    match sim with
    | some s => directSemanticFit s
    | none => (5, ["Semantic analysis failed"])

/-! ## `PerfectAnalysisEngine` -/

/-- Layout/font data the `FormattingChecker` extracts from the file with
PyMuPDF / python-docx, abstracted per file kind.  For a PDF each page
contributes a (tables-found, images-found) pair; for a DOCX the table and
image counts plus the run fonts/sizes; `fonts` lists the distinct font
names (the Python `set`), `sizes` the span/run sizes in points. -/
inductive FileData
  | pdf (pages : List (Bool × Bool)) (fonts : List String) (sizes : List ℚ)
  | docx (numTables imageCount : ℕ) (fonts : List String) (sizes : List ℚ)
  | txt
  | other

/-- Penalty contributed by one PDF page in `_check_pdf_layout`. -/
def pageDelta (p : Bool × Bool) : ℚ := (if p.1 then -5 else 0) + (if p.2 then -5 else 0)

/-- Feedback contributed by one PDF page in `_check_pdf_layout`. -/
def pageFeedback (p : Bool × Bool) : List String :=
  (if p.1 then ["Tables detected - may break ATS parsers"] else []) ++
    (if p.2 then ["Images/graphics detected - avoid visual elements"] else [])

/-- The page loop of `_check_pdf_layout`. -/
def pdfLayoutScan : List (Bool × Bool) → ℚ × List String
  | [] => (0, [])
  | p :: rest =>
    let r := pdfLayoutScan rest
    (pageDelta p + r.1, pageFeedback p ++ r.2)

/-- Model of `FormattingChecker.check_file_layout` (20 points). -/
def checkFileLayout : FileData → ℚ × List String
  | .pdf pages _ _ =>
    let r := pdfLayoutScan pages
    (max 0 (20 + r.1), r.2)
  | .docx numTables imageCount _ _ =>
    let s1 : ℚ × List String :=
      if 0 < numTables then (-5, [toString numTables ++ " tables found - use simple formatting"])
      else (0, [])
    let s2 : ℚ × List String :=
      if 0 < imageCount then (-5, ["Images detected - remove visual elements"]) else (0, [])
    (max 0 (20 + s1.1 + s2.1), s1.2 ++ s2.2)
  | .txt => (max 0 (20 - 10 : ℚ), ["TXT format lacks formatting - use PDF or DOCX"])
  | .other => (20, [])

/-- The standard-font whitelist of `FormattingChecker`. -/
def STANDARD_FONTS : List String := ["Arial", "Calibri", "Times New Roman", "Helvetica", "Georgia"]

/-- Minimum of a non-empty list given as head and tail (model of Python
`min(body_sizes)`). -/
def minQ (x : ℚ) (l : List ℚ) : ℚ := l.foldl min x

/-- Maximum of a non-empty list given as head and tail (model of Python
`max(body_sizes)`). -/
def maxQ (x : ℚ) (l : List ℚ) : ℚ := l.foldl max x

/-- The body-size deduction shared by `_check_pdf_fonts` and
`_check_docx_fonts`: sizes restricted to [9,13]; penalty when the minimum
is below 10 or the maximum above 12. -/
def bodySizeIssue (sizes : List ℚ) : Bool :=
  match sizes.filter fun s => 9 ≤ s ∧ s ≤ 13 with
  | [] => false
  | b :: rest => minQ b rest < 10 ∨ 12 < maxQ b rest

/-- The font deductions of `_check_pdf_fonts` / `_check_docx_fonts`:
too many fonts (−3), non-standard fonts (−2, substring test for PDF,
set difference for DOCX), body sizes outside 10–12pt (−2). -/
def fontDeltas (isPdf : Bool) (fonts : List String) (sizes : List ℚ) : ℚ × List String :=
  let s1 : ℚ × List String :=
    if 3 < fonts.length then
      (-3,
       if isPdf then ["Too many fonts (" ++ toString fonts.length ++ ") - use 1-2 standard fonts"]
       else ["Too many fonts (" ++ toString fonts.length ++ ") - simplify formatting"])
    else (0, [])
  let nonStandard :=
    if isPdf then fonts.filter fun f => !STANDARD_FONTS.any fun sf => containsSub f sf
    else fonts.filter fun f => !STANDARD_FONTS.contains f
  let s2 : ℚ × List String :=
    if nonStandard ≠ [] then
      (s1.1 - 2,
       s1.2 ++ (if isPdf then ["Use standard fonts (Arial, Calibri, Times New Roman)"]
                else ["Use standard fonts"]))
    else s1
  if bodySizeIssue sizes then
    (s2.1 - 2, s2.2 ++ (if isPdf then ["Use 10-12pt font for body text"]
                        else ["Use 10-12pt font size"]))
  else s2

/-- Model of `FormattingChecker.check_font_consistency` (10 points). -/
def checkFontConsistency : FileData → ℚ × List String
  | .pdf _ fonts sizes =>
    let r := fontDeltas true fonts sizes
    (max 0 (10 + r.1), r.2)
  | .docx _ _ fonts sizes =>
    let r := fontDeltas false fonts sizes
    (max 0 (10 + r.1), r.2)
  | .txt => (10, [])
  | .other => (10, [])

/-- The inputs of one `PerfectAnalysisEngine.analyze` call.  Fields that a
checker receives from an external library are the abstractions documented
on the respective checker. -/
structure AnalyzeInput where
  file : FileData
  flesch : Option ℚ
  resume_text : String
  jd_text : Option String
  work_history : List Job
  skills : List String
  experience_text : String
  contact_text : String
  experience_bullets : List String
  metricsFound : ℕ
  mlQuantMatches : ℕ
  isTech : String → Bool
  isSoft : String → Bool
  jdTerms : Option (List String)
  useKB : Bool
  criticalTerms : Option (List String)
  sim : Option ℚ
  oracle : String → Option PyDate
  now : PyDate

/-- Python truthiness of the optional `jd_text` argument. -/
def jdPresent (i : AnalyzeInput) : Bool :=
  match i.jd_text with
  | none => false
  | some s => s ≠ ""

/-- The `jd_text or ""` value handed to the JD-alignment checkers. -/
def jdString (i : AnalyzeInput) : String :=
  match i.jd_text with
  | none => ""
  | some s => s

/-- The per-category raw scores collected in the `scores` dict. -/
structure Breakdown where
  file_layout : ℚ
  font_consistency : ℚ
  readability : ℚ
  professional_language : ℚ
  date_consistency : ℚ
  employment_gaps : ℚ
  career_progression : ℚ
  keyword_alignment : ℚ
  skill_context : ℚ
  semantic_fit : ℚ
  quantified_impact : ℚ
  online_presence : ℚ
deriving DecidableEq, Repr

/-- The result dict of `PerfectAnalysisEngine.analyze`. -/
structure AnalysisResult where
  final_score : ℚ
  grade : String
  breakdown : Breakdown
  feedback : List String
  total_checks : ℕ
  skill_match_details : SkillDetails
deriving DecidableEq, Repr

/-- Model of `PerfectAnalysisEngine._calculate_weighted_score`: each raw
score normalised by its `max_points` entry to 0–100, weighted, summed,
clamped to [0,100]. -/
def calculateWeightedScore (b : Breakdown) : ℚ :=
  let s :=
    b.file_layout / 20 * 100 * (10/100) +
    b.font_consistency / 10 * 100 * (5/100) +
    b.readability / 10 * 100 * (5/100) +
    b.professional_language / 10 * 100 * (5/100) +
    b.date_consistency / 5 * 100 * (25/1000) +
    b.employment_gaps / 10 * 100 * (5/100) +
    b.career_progression / 5 * 100 * (25/1000) +
    b.keyword_alignment / 15 * 100 * (15/100) +
    b.skill_context / 5 * 100 * (5/100) +
    b.semantic_fit / 20 * 100 * (25/100) +
    b.quantified_impact / 10 * 100 * (15/100) +
    b.online_presence / 5 * 100 * (5/100)
  min 100 (max 0 s)

/-- Model of `PerfectAnalysisEngine._calculate_grade` (and of the
identical `AdaptiveScorer._calculate_grade`). -/
def calculateGrade (score : ℚ) : String :=
  if 90 ≤ score then "A"
  else if 80 ≤ score then "B"
  else if 70 ≤ score then "C"
  else if 60 ≤ score then "D"
  else "F"

/-- The `scores` dict assembled by `analyze`, given the employment-gaps
score (the one sub-check that can abort; see `checkEmploymentGaps`).
`career_progression` and `quantified_impact` are the max-merges of the
rule-based checker output with the `enhance_impact_score` variants. -/
def analyzeBreakdown (i : AnalyzeInput) (gapsScore : ℚ) : Breakdown where
  file_layout := (checkFileLayout i.file).1
  font_consistency := (checkFontConsistency i.file).1
  readability := (checkReadability i.flesch).1
  professional_language := (checkProfessionalLanguage i.resume_text i.experience_bullets).1
  date_consistency := (checkDateConsistency i.work_history).1
  employment_gaps := gapsScore
  career_progression :=
    max (checkCareerProgression i.oracle i.now i.work_history).1
      (detectProgression i.work_history / 20)
  keyword_alignment :=
    (checkKeywordAlignment i.isTech i.isSoft i.jdTerms i.resume_text (jdString i)).1
  skill_context := (checkSkillContext i.skills i.experience_text).1
  semantic_fit := (checkSemanticFit i.useKB i.criticalTerms i.sim i.resume_text (jdString i)).1
  quantified_impact :=
    max (checkQuantifiedAchievements i.metricsFound i.experience_text).1
      (quantifyImpact i.mlQuantMatches / 10)
  online_presence := (checkOnlinePresence i.contact_text).1

/-- The `all_feedback` list before the mismatch override, in the source's
extension order (impact feedback is appended after semantic feedback). -/
def analyzeFeedbackBase (i : AnalyzeInput) (gapsFb : List String) : List String :=
  (checkFileLayout i.file).2 ++
  (checkFontConsistency i.file).2 ++
  (checkReadability i.flesch).2 ++
  (checkProfessionalLanguage i.resume_text i.experience_bullets).2 ++
  (checkDateConsistency i.work_history).2 ++
  gapsFb ++
  (checkCareerProgression i.oracle i.now i.work_history).2 ++
  (checkKeywordAlignment i.isTech i.isSoft i.jdTerms i.resume_text (jdString i)).2.1 ++
  (checkSkillContext i.skills i.experience_text).2 ++
  (checkSemanticFit i.useKB i.criticalTerms i.sim i.resume_text (jdString i)).2 ++
  (checkQuantifiedAchievements i.metricsFound i.experience_text).2 ++
  (checkOnlinePresence i.contact_text).2

/-- The critical-mismatch message prepended when semantic fit is < 4/20. -/
def criticalMismatchMsg : String := "⚠️ CRITICAL: Resume does not match job role requirements"

/-- The warning message prepended when semantic fit is in [4, 7). -/
def weakAlignmentMsg : String := "⚠️ WARNING: Weak job-role alignment detected"

/-- The final score before `round(_, 1)`: weighted composite with the
global mismatch caps applied. -/
def preRoundFinal (i : AnalyzeInput) (gapsScore : ℚ) : ℚ :=
  let b := analyzeBreakdown i gapsScore
  let base := calculateWeightedScore b
  if jdPresent i = true ∧ b.semantic_fit < 4 then min base 30
  else if jdPresent i = true ∧ b.semantic_fit < 7 then min base 50
  else base

/-- The feedback list returned by `analyze` (override messages prepended
via `all_feedback.insert(0, ...)`). -/
def analyzeFeedback (i : AnalyzeInput) (gapsScore : ℚ) (gapsFb : List String) : List String :=
  let b := analyzeBreakdown i gapsScore
  if jdPresent i = true ∧ b.semantic_fit < 4 then
    criticalMismatchMsg :: analyzeFeedbackBase i gapsFb
  else if jdPresent i = true ∧ b.semantic_fit < 7 then
    weakAlignmentMsg :: analyzeFeedbackBase i gapsFb
  else analyzeFeedbackBase i gapsFb

/-- The result dict of `analyze` given the employment-gaps sub-result. -/
def analyzeCore (i : AnalyzeInput) (gapsScore : ℚ) (gapsFb : List String) : AnalysisResult where
  final_score := pyRound1 (preRoundFinal i gapsScore)
  grade := calculateGrade (preRoundFinal i gapsScore)
  breakdown := analyzeBreakdown i gapsScore
  feedback := analyzeFeedback i gapsScore gapsFb
  total_checks := 12
  skill_match_details :=
    if jdPresent i = true then
      (checkKeywordAlignment i.isTech i.isSoft i.jdTerms i.resume_text (jdString i)).2.2
    else emptySkillDetails

/-- Model of `PerfectAnalysisEngine.analyze`.  The only sub-check that can
raise out of `analyze` is the employment-gaps sort (see
`checkEmploymentGaps`); everything else is total. -/
def analyze (i : AnalyzeInput) : Except String AnalysisResult :=
  match checkEmploymentGaps i.oracle i.now i.work_history with
  | .error e => .error e
  | .ok (gapsScore, gapsFb) => .ok (analyzeCore i gapsScore gapsFb)

/-! ## `SmartSkillMatcher` -/

/-- Model of `SmartSkillMatcher._normalize`: `skill.lower().strip()`. -/
def normalizeSkill (s : String) : String := stripStr (lowerStr s)

/-- The fallback `EQUIVALENTS` table of `SmartSkillMatcher`. -/
def SKILL_EQUIVALENTS : List (String × List String) :=
  [("sql", ["t-sql", "sql server", "mysql", "postgresql", "plsql"]),
   ("power bi", ["powerbi", "power bi desktop", "power bi service", "power bi dataflows"]),
   ("etl", ["etl automation", "etl tools", "etl processes", "data integration"]),
   ("data modeling", ["data modelling", "database modeling", "data model"]),
   ("data warehousing", ["data warehouse", "dwh", "data mart"]),
   ("python", ["python3", "python 3", "py"]),
   ("javascript", ["js", "node.js", "nodejs"]),
   ("machine learning", ["ml", "deep learning", "neural networks"]),
   ("aws", ["amazon web services", "ec2", "s3", "lambda"]),
   ("azure", ["microsoft azure", "azure cloud"]),
   ("docker", ["containerization", "containers"]),
   ("kubernetes", ["k8s", "container orchestration"]),
   ("tableau", ["tableau desktop", "tableau server"]),
   ("excel", ["microsoft excel", "ms excel", "spreadsheets"]),
   ("communication", ["communication skills", "interpersonal skills"]),
   ("problem solving", ["problem-solving", "analytical skills", "critical thinking"])]

/-- Model of `SmartSkillMatcher._is_match`.  `kb` abstracts the optional
knowledge-base semantic step (step 3; `False` everywhere when the KB is
unavailable), `fuzzy` abstracts `difflib.SequenceMatcher(None, a, b).ratio()`
used by the last-resort step with the matcher's `fuzzy_threshold`. -/
def isMatchSkill (kb : String → List String → Bool) (fuzzy : String → String → ℚ)
    (fuzzyThreshold : ℚ) (jdSkill : String) (resumeSkills : List String) : Bool :=
  if resumeSkills.contains jdSkill then true
  else if resumeSkills.any fun r => containsSub r jdSkill || containsSub jdSkill r then true
  else if kb jdSkill resumeSkills then true
  else if SKILL_EQUIVALENTS.any fun bv =>
      (jdSkill = bv.1 || bv.2.contains jdSkill) &&
        resumeSkills.any fun r => r = bv.1 || bv.2.contains r then true
  else resumeSkills.any fun r => fuzzyThreshold ≤ fuzzy jdSkill r

/-- The loop of `match_skills`: JD skills processed in order, matches
collected without duplicates (Python adds them to a `set`; the model keeps
first-match order), misses appended in order. -/
def matchSkillsLoop (kb : String → List String → Bool) (fuzzy : String → String → ℚ)
    (fuzzyThreshold : ℚ) (rn : List String) (acc : List String × List String) :
    List String → List String × List String
  | [] => acc
  | j :: js =>
    let acc2 :=
      if isMatchSkill kb fuzzy fuzzyThreshold (normalizeSkill j) rn then
        (if acc.1.contains j then acc.1 else acc.1 ++ [j], acc.2)
      else (acc.1, acc.2 ++ [j])
    matchSkillsLoop kb fuzzy fuzzyThreshold rn acc2 js

/-- Model of `SmartSkillMatcher.match_skills`:
`(matched, missing, match_percentage)`. -/
def matchSkills (kb : String → List String → Bool) (fuzzy : String → String → ℚ)
    (fuzzyThreshold : ℚ) (resumeSkills jdSkills : List String) :
    List String × List String × ℚ :=
  if jdSkills = [] then ([], [], 100)
  else
    let rn := resumeSkills.map normalizeSkill
    let r := matchSkillsLoop kb fuzzy fuzzyThreshold rn ([], []) jdSkills
    (r.1, r.2, (r.1.length : ℚ) / jdSkills.length * 100)

/-! ## `MLEnhancedAnalyzer` fusion step and `AdaptiveScorer` display scale -/

/-- Model of `AdaptiveScorer.normalize_scores` for one entry: the 0–100
display scale `raw / max_points * 100`. -/
def displayScore (raw maxPoints : ℚ) : ℚ := raw / maxPoints * 100

/-- Model of the score fusion in `MLEnhancedAnalyzer.analyze`:
`fused = 0.5*rule + 0.5*ml`, then subtract
`min(0.1 * max(0, (100 - breakdown['file_layout']) / 10), 10)` — the
formatting penalty computed from the raw 0–20 `file_layout` entry of the
orchestrator's breakdown — and floor at 0. -/
def mlFusedScore (ruleScore mlScore fileLayoutRaw : ℚ) : ℚ :=
  let fused := 1/2 * ruleScore + 1/2 * mlScore
  let formattingPenalty := max 0 ((100 - fileLayoutRaw) / 10)
  max (fused - min (1/10 * formattingPenalty) 10) 0

/-- The grade recomputation after fusion
(`adaptive_scorer._calculate_grade(fused_score)`). -/
def mlFusedGrade (ruleScore mlScore fileLayoutRaw : ℚ) : String :=
  calculateGrade (mlFusedScore ruleScore mlScore fileLayoutRaw)

/-! ## Spec-side variant for the promotion bonus -/

/-- Follows the spec's words for the career-progression promotion bonus
("add 2 if any company appears with more than one distinct title"): same
as `checkCareerProgression`, but a company counts as a promotion only when
its title list has more than one distinct entry.  Used to compare against
the source model, which counts repeated identical titles too. -/
def careerProgressionSpec (oracle : String → Option PyDate) (now : PyDate) (wh : List Job) :
    ℚ × List String :=
  if wh = [] then (0, ["No work experience listed"])
  else
    let ty := calculateTotalYears oracle now wh
    let s1 : ℚ × List String :=
      if ty < 2 then (5 - 2, ["Limited experience (" ++ fmt1 ty ++ " years)"]) else (5, [])
    let promotions := (companyTitles wh).countP fun p => 1 < p.2.dedup.length
    let s2 : ℚ × List String :=
      if 0 < promotions then
        (s1.1 + 2, s1.2 ++ ["Career progression: " ++ toString promotions ++ " promotion(s) detected"])
      else s1
    let hasProgression := wh.any fun j =>
      SENIORITY_KEYWORDS.any fun kw => containsSub (lowerStr j.title) kw
    let s3 : ℚ × List String :=
      if !hasProgression ∧ 2 < wh.length then
        (s2.1 - 1, s2.2 ++ ["No clear seniority progression in titles"])
      else s2
    (min 10 (max 0 s3.1), s3.2)

/-! ## Statement abbreviations and concrete instances -/

/-- The per-category raw-score ranges that actually hold on the code: the
fixed table's bounds for ten categories, a 7-point reachable maximum for
`career_progression` (checker clamp [0,10], `+2` promotion bonus on top of
the 5-point ceiling, merged variant at most 4), and `[-24, 24]` for
`semantic_fit` (cosine similarity in `[-1, 1]` scaled by `20 ×` a
multiplier of at most `1.2`). -/
def AmendedBreakdownBounds (b : Breakdown) : Prop :=
  (0 ≤ b.file_layout ∧ b.file_layout ≤ 20) ∧
  (0 ≤ b.font_consistency ∧ b.font_consistency ≤ 10) ∧
  (0 ≤ b.readability ∧ b.readability ≤ 10) ∧
  (0 ≤ b.professional_language ∧ b.professional_language ≤ 10) ∧
  (0 ≤ b.date_consistency ∧ b.date_consistency ≤ 5) ∧
  (0 ≤ b.employment_gaps ∧ b.employment_gaps ≤ 10) ∧
  (0 ≤ b.career_progression ∧ b.career_progression ≤ 7) ∧
  (0 ≤ b.keyword_alignment ∧ b.keyword_alignment ≤ 15) ∧
  (0 ≤ b.skill_context ∧ b.skill_context ≤ 5) ∧
  (-24 ≤ b.semantic_fit ∧ b.semantic_fit ≤ 24) ∧
  (0 ≤ b.quantified_impact ∧ b.quantified_impact ≤ 10) ∧
  (0 ≤ b.online_presence ∧ b.online_presence ≤ 5)

/-- The documented score→grade bands of `_calculate_grade`. -/
def GradeBands (s : ℚ) : Prop :=
  (calculateGrade s = "A" ↔ 90 ≤ s) ∧
  (calculateGrade s = "B" ↔ 80 ≤ s ∧ s < 90) ∧
  (calculateGrade s = "C" ↔ 70 ≤ s ∧ s < 80) ∧
  (calculateGrade s = "D" ↔ 60 ≤ s ∧ s < 70) ∧
  (calculateGrade s = "F" ↔ s < 60)

/-- A concrete dateutil behaviour used by the concrete instances below:
the handful of `MM/YYYY` strings they contain parse to the first of that
month, everything else fails. -/
def oracleCX : String → Option PyDate := fun s =>
  if s = "01/2015" then some ⟨2015, 1, 1⟩
  else if s = "01/2018" then some ⟨2018, 1, 1⟩
  else if s = "01/2019" then some ⟨2019, 1, 1⟩
  else if s = "01/2020" then some ⟨2020, 1, 1⟩
  else if s = "01/2021" then some ⟨2021, 1, 1⟩
  else if s = "03/2021" then some ⟨2021, 3, 1⟩
  else if s = "01/2022" then some ⟨2022, 1, 1⟩
  else none

/-- A fixed `datetime.now()` for the concrete instances. -/
def nowCX : PyDate := ⟨2025, 10, 1⟩

/-- Concrete input whose breakdown exceeds two of the fixed ceilings: a
two-job history at one company (promotion bonus, 7 > 5 career points) and
a knowledge-base semantic fit with full keyword coverage and perfect
cosine similarity (boost 1.2, 24 > 20 points). -/
def inputC1 : AnalyzeInput where
  file := .other
  flesch := some 70
  resume_text := "senior eng"
  jd_text := some "eng role"
  work_history :=
    [⟨"engineer", "acme", "01/2018", "01/2021"⟩,
     ⟨"senior engineer", "acme", "01/2021", "present"⟩]
  skills := []
  experience_text := ""
  contact_text := ""
  experience_bullets := []
  metricsFound := 0
  mlQuantMatches := 0
  isTech := fun _ => false
  isSoft := fun _ => false
  jdTerms := some []
  useKB := true
  criticalTerms := some ["eng"]
  sim := some 1
  oracle := oracleCX
  now := nowCX

/-- The result `analyze inputC1` produces (gaps sub-check returns (10, [])). -/
def resultC1 : AnalysisResult := analyzeCore inputC1 10 []

/-- Concrete input with a JD present and a critically low semantic fit
(no critical JD term appears in the resume, rate 0 < 0.25). -/
def inputC2a : AnalyzeInput where
  file := .other
  flesch := some 70
  resume_text := "java dev"
  jd_text := some "rust role"
  work_history := []
  skills := []
  experience_text := ""
  contact_text := ""
  experience_bullets := []
  metricsFound := 0
  mlQuantMatches := 0
  isTech := fun _ => false
  isSoft := fun _ => false
  jdTerms := some []
  useKB := true
  criticalTerms := some ["rust"]
  sim := some 1
  oracle := fun _ => none
  now := nowCX

/-- The result `analyze inputC2a` produces. -/
def resultC2a : AnalysisResult := analyzeCore inputC2a 10 []

/-- Concrete input with a JD present and semantic fit 6 ∈ [4, 7)
(direct S-BERT path, similarity 0.3). -/
def inputC2b : AnalyzeInput where
  file := .other
  flesch := some 70
  resume_text := "java dev"
  jd_text := some "rust role"
  work_history := []
  skills := []
  experience_text := ""
  contact_text := ""
  experience_bullets := []
  metricsFound := 0
  mlQuantMatches := 0
  isTech := fun _ => false
  isSoft := fun _ => false
  jdTerms := some []
  useKB := false
  criticalTerms := none
  sim := some (3/10)
  oracle := fun _ => none
  now := nowCX

/-- The result `analyze inputC2b` produces. -/
def resultC2b : AnalysisResult := analyzeCore inputC2b 10 []

/-- Concrete input scoring full marks in every category except a direct
semantic fit of `0.5984 × 20 = 11.968`: the weighted composite is 89.96,
which `round(_, 1)` reports as 90.0 while the grade is computed from the
unrounded 89.96 (band B). -/
def inputC3 : AnalyzeInput where
  file := .pdf [] [] []
  flesch := some 70
  resume_text := "python sql"
  jd_text := some "python"
  work_history := [⟨"senior dev", "acme", "01/2015", "01/2020"⟩]
  skills := ["python"]
  experience_text := "python"
  contact_text := "linkedin.com github.com"
  experience_bullets := ["led x"]
  metricsFound := 5
  mlQuantMatches := 5
  isTech := fun _ => true
  isSoft := fun _ => false
  jdTerms := some ["python"]
  useKB := false
  criticalTerms := none
  sim := some (374/625)
  oracle := oracleCX
  now := nowCX

/-- The result `analyze inputC3` produces. -/
def resultC3 : AnalysisResult := analyzeCore inputC3 10 []

/-- Two-job history with a 14-month gap (Jan 2020 end to Mar 2021 start). -/
def whC5 : List Job :=
  [⟨"dev", "aco", "01/2019", "01/2020"⟩, ⟨"dev", "bco", "03/2021", "present"⟩]

/-- Work history whose date strings dateutil cannot parse. -/
def whC6 : List Job :=
  [⟨"dev", "xco", "garbage", "junk"⟩, ⟨"dev", "yco", "nonsense", "junk2"⟩]

/-- Oracle for a dateutil that fails on every string it is given. -/
def noParseOracle : String → Option PyDate := fun _ => none

/-- Two stints at the same company with the identical title: the code's
promotion counter still fires (more than one entry), the spec's distinct
requirement does not. -/
def whC8 : List Job :=
  [⟨"senior dev", "acme", "01/2018", "01/2020"⟩,
   ⟨"senior dev", "acme", "01/2020", "01/2022"⟩]

/-! ## Helper lemmas -/

theorem roundHalfEven_le_int (x : ℚ) (n : ℤ) (h : x ≤ (n : ℚ)) : roundHalfEven x ≤ n := by
  unfold roundHalfEven
  have hf : ⌊x⌋ ≤ n := by
    have := Int.floor_le_floor h
    rwa [Int.floor_intCast] at this
  split_ifs with h1 h2 h3
  · exact hf
  · by_contra hc
    push_neg at hc
    have hxn : (n : ℚ) ≤ (⌊x⌋ : ℚ) := by exact_mod_cast Int.lt_add_one_iff.mp hc
    have : x ≤ (⌊x⌋ : ℚ) := h.trans hxn
    have := Int.floor_le x
    linarith
  · exact hf
  · by_contra hc
    push_neg at hc
    have hxn : (n : ℚ) ≤ (⌊x⌋ : ℚ) := by exact_mod_cast Int.lt_add_one_iff.mp hc
    have hfl : x ≤ (⌊x⌋ : ℚ) := h.trans hxn
    have hge : (1:ℚ)/2 ≤ x - (⌊x⌋ : ℚ) := le_of_not_lt h1
    linarith

theorem int_le_roundHalfEven (x : ℚ) (n : ℤ) (h : (n : ℚ) ≤ x) : n ≤ roundHalfEven x := by
  unfold roundHalfEven
  have hf : n ≤ ⌊x⌋ := by
    rw [Int.le_floor]
    exact_mod_cast h
  split_ifs <;> omega

theorem pyRound1_le_int (x : ℚ) (n : ℤ) (h : x ≤ (n : ℚ)) : pyRound1 x ≤ (n : ℚ) := by
  unfold pyRound1
  rw [div_le_iff₀ (by norm_num : (0:ℚ) < 10)]
  have := roundHalfEven_le_int (x * 10) (n * 10) (by push_cast; linarith)
  calc ((roundHalfEven (x * 10) : ℤ) : ℚ) ≤ ((n * 10 : ℤ) : ℚ) := by exact_mod_cast this
    _ = (n : ℚ) * 10 := by push_cast; ring

theorem int_le_pyRound1 (x : ℚ) (n : ℤ) (h : (n : ℚ) ≤ x) : (n : ℚ) ≤ pyRound1 x := by
  unfold pyRound1
  rw [le_div_iff₀ (by norm_num : (0:ℚ) < 10)]
  have := int_le_roundHalfEven (x * 10) (n * 10) (by push_cast; linarith)
  calc (n : ℚ) * 10 = ((n * 10 : ℤ) : ℚ) := by push_cast; ring
    _ ≤ ((roundHalfEven (x * 10) : ℤ) : ℚ) := by exact_mod_cast this

theorem natRatio_nonneg (a b : ℕ) : 0 ≤ (a : ℚ) / b := by positivity

theorem natRatio_le_one {a b : ℕ} (h : a ≤ b) : (a : ℚ) / b ≤ 1 := by
  rcases Nat.eq_zero_or_pos b with hb | hb
  · subst hb
    simp
  · rw [div_le_one (by exact_mod_cast hb)]
    exact_mod_cast h

theorem analyze_ok_iff (i : AnalyzeInput) (r : AnalysisResult) :
    analyze i = .ok r ↔
      ∃ g fb, checkEmploymentGaps i.oracle i.now i.work_history = .ok (g, fb) ∧
        r = analyzeCore i g fb := by
  unfold analyze
  rcases h : checkEmploymentGaps i.oracle i.now i.work_history with e | ⟨g, fb⟩
  · simp
  · constructor
    · intro hr
      exact ⟨g, fb, rfl, by injection hr with h2; exact h2.symm⟩
    · rintro ⟨g', fb', hgf, hr⟩
      injection hgf with h2
      injection h2 with hg hfb
      simp [hr, hg, hfb]

theorem pdfLayoutScan_nonpos (pages : List (Bool × Bool)) : (pdfLayoutScan pages).1 ≤ 0 := by
  induction pages with
  | nil => simp [pdfLayoutScan]
  | cons p rest ih =>
    have hp : pageDelta p ≤ 0 := by
      unfold pageDelta
      split_ifs <;> norm_num
    simp only [pdfLayoutScan]
    linarith

theorem checkFileLayout_bounds (f : FileData) :
    0 ≤ (checkFileLayout f).1 ∧ (checkFileLayout f).1 ≤ 20 := by
  rcases f with ⟨pages, fonts, sizes⟩ | ⟨nt, ic, fonts, sizes⟩ | _ | _
  · have := pdfLayoutScan_nonpos pages
    unfold checkFileLayout
    constructor
    · exact le_max_left 0 _
    · exact max_le (by norm_num) (by linarith)
  · unfold checkFileLayout
    dsimp only
    split_ifs <;>
      constructor <;>
      first
        | exact le_max_left 0 _
        | exact max_le (by norm_num) (by norm_num)
  · unfold checkFileLayout
    norm_num
  · unfold checkFileLayout
    norm_num

theorem fontDeltas_nonpos (isPdf : Bool) (fonts : List String) (sizes : List ℚ) :
    (fontDeltas isPdf fonts sizes).1 ≤ 0 := by
  unfold fontDeltas
  dsimp only
  split_ifs <;> norm_num

theorem checkFontConsistency_bounds (f : FileData) :
    0 ≤ (checkFontConsistency f).1 ∧ (checkFontConsistency f).1 ≤ 10 := by
  rcases f with ⟨pages, fonts, sizes⟩ | ⟨nt, ic, fonts, sizes⟩ | _ | _
  · have := fontDeltas_nonpos true fonts sizes
    unfold checkFontConsistency
    exact ⟨le_max_left 0 _, max_le (by norm_num) (by linarith)⟩
  · have := fontDeltas_nonpos false fonts sizes
    unfold checkFontConsistency
    exact ⟨le_max_left 0 _, max_le (by norm_num) (by linarith)⟩
  · unfold checkFontConsistency
    norm_num
  · unfold checkFontConsistency
    norm_num

theorem checkReadability_bounds (flesch : Option ℚ) :
    0 ≤ (checkReadability flesch).1 ∧ (checkReadability flesch).1 ≤ 10 := by
  rcases flesch with _ | f
  · unfold checkReadability
    norm_num
  · unfold checkReadability
    dsimp only
    split_ifs <;> norm_num

theorem checkProfessionalLanguage_bounds (text : String) (bullets : List String) :
    0 ≤ (checkProfessionalLanguage text bullets).1 ∧
      (checkProfessionalLanguage text bullets).1 ≤ 10 := by
  unfold checkProfessionalLanguage
  dsimp only
  split_ifs <;>
    constructor <;>
    first
      | exact le_max_left 0 _
      | exact max_le (by norm_num) (by norm_num)

theorem checkDateConsistency_bounds (wh : List Job) :
    0 ≤ (checkDateConsistency wh).1 ∧ (checkDateConsistency wh).1 ≤ 5 := by
  unfold checkDateConsistency
  split_ifs with h
  · norm_num
  · rcases dateStrings wh with _ | ⟨d0, rest⟩
    · norm_num
    · dsimp only
      rcases datePattern d0 with _ | p
      · norm_num
      · dsimp only
        split_ifs <;> norm_num

theorem checkEmploymentGaps_ok_bounds {oracle : String → Option PyDate} {now : PyDate}
    {wh : List Job} {g : ℚ} {fb : List String}
    (h : checkEmploymentGaps oracle now wh = .ok (g, fb)) : 0 ≤ g ∧ g ≤ 10 := by
  unfold checkEmploymentGaps at h
  split_ifs at h with h1 h2
  · injection h with h
    injection h with hg hfb
    subst hg
    norm_num
  · dsimp only at h
    split_ifs at h with h3
    · injection h with h
      injection h with hg hfb
      subst hg
      constructor
      · exact le_max_left 0 _
      · refine max_le (by norm_num) ?_
        have : (0:ℚ) ≤ ((min 10 ((gapList oracle now (sortedByStart oracle now wh)).length * 3) : ℕ) : ℚ) := by
          positivity
        linarith
    · injection h with h
      injection h with hg hfb
      subst hg
      norm_num

theorem checkCareerProgression_bounds (oracle : String → Option PyDate) (now : PyDate)
    (wh : List Job) :
    0 ≤ (checkCareerProgression oracle now wh).1 ∧
      (checkCareerProgression oracle now wh).1 ≤ 7 := by
  unfold checkCareerProgression
  dsimp only
  split_ifs <;> constructor <;> norm_num

theorem detectProgression_bounds (blocks : List Job) :
    0 ≤ detectProgression blocks ∧ detectProgression blocks ≤ 80 := by
  unfold detectProgression
  rcases blocks with _ | ⟨b, _ | ⟨c, rest⟩⟩
  · norm_num
  · norm_num
  · dsimp only
    split_ifs <;> norm_num

theorem mul3_bound {r c : ℚ} (hr0 : 0 ≤ r) (hr1 : r ≤ 1) (hc0 : 0 ≤ c) (hc1 : c ≤ 1) :
    0 ≤ r * 15 * c ∧ r * 15 * c ≤ 15 := by
  constructor
  · positivity
  · nlinarith

theorem checkKeywordAlignment_bounds (isTech isSoft : String → Bool)
    (jdTerms : Option (List String)) (resume jd : String) :
    0 ≤ (checkKeywordAlignment isTech isSoft jdTerms resume jd).1 ∧
      (checkKeywordAlignment isTech isSoft jdTerms resume jd).1 ≤ 15 := by
  unfold checkKeywordAlignment
  split_ifs with h
  · norm_num
  · rcases jdTerms with _ | terms
    · norm_num
    · dsimp only
      set r : ℚ := (if terms = [] then (0:ℚ) else
          ((List.filter (fun t => containsSub (lowerStr resume) (lowerStr t)) terms).length : ℚ) /
            terms.length) with hr
      have hr0 : 0 ≤ r := by
        rw [hr]
        split_ifs
        · norm_num
        · exact natRatio_nonneg _ _
      have hr1 : r ≤ 1 := by
        rw [hr]
        split_ifs
        · norm_num
        · exact natRatio_le_one (List.length_filter_le _ _)
      split_ifs <;> dsimp only <;> constructor <;> nlinarith [hr0, hr1]

theorem checkSkillContext_bounds (skills : List String) (experienceText : String) :
    0 ≤ (checkSkillContext skills experienceText).1 ∧
      (checkSkillContext skills experienceText).1 ≤ 5 := by
  unfold checkSkillContext
  dsimp only
  split_ifs <;> norm_num

theorem checkQuantifiedAchievements_bounds (metricsFound : ℕ) (text : String) :
    0 ≤ (checkQuantifiedAchievements metricsFound text).1 ∧
      (checkQuantifiedAchievements metricsFound text).1 ≤ 10 := by
  unfold checkQuantifiedAchievements
  dsimp only
  split_ifs <;> norm_num

theorem quantifyImpact_bounds (cnt : ℕ) : 0 ≤ quantifyImpact cnt ∧ quantifyImpact cnt ≤ 100 := by
  unfold quantifyImpact
  split_ifs <;> norm_num

theorem checkOnlinePresence_bounds (contact : String) :
    0 ≤ (checkOnlinePresence contact).1 ∧ (checkOnlinePresence contact).1 ≤ 5 := by
  unfold checkOnlinePresence
  dsimp only
  split_ifs <;> norm_num

theorem kbStage2_bounds (cmr : ℚ) (sim : Option ℚ) (_hc0 : 0 ≤ cmr) (_hc1 : cmr ≤ 1)
    (hs : ∀ s, sim = some s → -1 ≤ s ∧ s ≤ 1) :
    -24 ≤ (kbStage2 cmr sim).1 ∧ (kbStage2 cmr sim).1 ≤ 24 := by
  rcases sim with _ | s
  · unfold kbStage2
    norm_num
  · obtain ⟨hs0, hs1⟩ := hs s rfl
    unfold kbStage2
    dsimp only
    split_ifs with h1 h2
    · have hm0 : 0 ≤ min (6/5 : ℚ) (4/5 + cmr * (2/5)) := le_min (by norm_num) (by nlinarith)
      have hm1 : min (6/5 : ℚ) (4/5 + cmr * (2/5)) ≤ 6/5 := min_le_left _ _
      constructor <;> nlinarith
    · push_neg at h1
      have hm0 : (0:ℚ) ≤ max (7/10 : ℚ) (cmr + 3/10) :=
        le_trans (by norm_num) (le_max_left _ _)
      have hm1 : max (7/10 : ℚ) (cmr + 3/10) ≤ 9/10 := max_le (by norm_num) (by nlinarith)
      constructor <;> nlinarith
    · constructor <;> nlinarith

theorem kbSemanticFit_bounds (criticalTerms : Option (List String)) (sim : Option ℚ)
    (resume : String) (hs : ∀ s, sim = some s → -1 ≤ s ∧ s ≤ 1) :
    -24 ≤ (kbSemanticFit criticalTerms sim resume).1 ∧
      (kbSemanticFit criticalTerms sim resume).1 ≤ 24 := by
  unfold kbSemanticFit
  rcases criticalTerms with _ | ts
  · exact kbStage2_bounds (1/2) sim (by norm_num) (by norm_num) hs
  · dsimp only
    set cmr : ℚ := (if ts = [] then (1/2 : ℚ) else
        (((List.filter (fun t => containsSub (lowerStr resume) (lowerStr t)) ts).length : ℚ) /
          ts.length)) with hcmr
    have hc0 : 0 ≤ cmr := by
      rw [hcmr]
      split_ifs
      · norm_num
      · exact natRatio_nonneg _ _
    have hc1 : cmr ≤ 1 := by
      rw [hcmr]
      split_ifs
      · norm_num
      · exact natRatio_le_one (List.length_filter_le _ _)
    split_ifs with h
    · dsimp only
      constructor <;> nlinarith
    · exact kbStage2_bounds cmr sim hc0 hc1 hs

theorem checkSemanticFit_bounds (useKB : Bool) (criticalTerms : Option (List String))
    (sim : Option ℚ) (resume jd : String) (hs : ∀ s, sim = some s → -1 ≤ s ∧ s ≤ 1) :
    -24 ≤ (checkSemanticFit useKB criticalTerms sim resume jd).1 ∧
      (checkSemanticFit useKB criticalTerms sim resume jd).1 ≤ 24 := by
  unfold checkSemanticFit
  split_ifs with h1 h2 h3
  · norm_num
  · norm_num
  · exact kbSemanticFit_bounds criticalTerms sim resume hs
  · rcases sim with _ | s
    · norm_num
    · obtain ⟨hs0, hs1⟩ := hs s rfl
      unfold directSemanticFit
      dsimp only
      constructor <;> nlinarith

theorem calculateWeightedScore_bounds (b : Breakdown) :
    0 ≤ calculateWeightedScore b ∧ calculateWeightedScore b ≤ 100 := by
  unfold calculateWeightedScore
  dsimp only
  constructor
  · exact le_min (by norm_num) (le_max_left 0 _)
  · exact min_le_left _ _

/-! ## Claim theorems -/

/-- C4: for every non-empty resume text, `check_semantic_fit(resume, "")`
returns the full ceiling 20.0 with no feedback (no JD = full credit), and
for every JD text `check_semantic_fit("", jd)` returns 0.0 (with the
invalid-input message) instead of raising. -/
theorem checkSemanticFit_empty_inputs :
    ∀ (useKB : Bool) (ct : Option (List String)) (sim : Option ℚ) (resume jd : String),
      (resume ≠ "" → checkSemanticFit useKB ct sim resume "" = (20, [])) ∧
      checkSemanticFit useKB ct sim "" jd = (0, ["Invalid resume text"]) := by
  intro useKB ct sim resume jd
  constructor
  · intro h
    unfold checkSemanticFit
    rw [if_neg h, if_pos rfl]
  · unfold checkSemanticFit
    rw [if_pos rfl]

/-- Witness for `checkSemanticFit_empty_inputs` at concrete texts. -/
theorem checkSemanticFit_empty_inputs_witness :
    checkSemanticFit true none none "abc" "" = (20, []) ∧
    checkSemanticFit true none none "" "xyz" = (0, ["Invalid resume text"]) :=
  ⟨(checkSemanticFit_empty_inputs true none none "abc" "").1 (by decide),
   (checkSemanticFit_empty_inputs true none none "" "xyz").2⟩

/-- C7 counterexample: with the rule score and ML score both 100 and a
perfect raw file-layout score of 20 (display score 100, so a penalty
proportional to the display deficit would subtract 0), the code still
subtracts 0.8 points: the fused score is 99.2, not 0.5×100 + 0.5×100. -/
theorem mlFusedScore_display_proportionality_cex :
    mlFusedScore 100 100 20 = 496/5 ∧
    displayScore 20 20 = 100 ∧
    mlFusedScore 100 100 20 < 1/2 * 100 + 1/2 * 100 := by
  refine ⟨?_, ?_, ?_⟩ <;> norm_num [mlFusedScore, displayScore, max_def, min_def]

/-- C7 (amended): with an ML score available the fused score is
`max(0.5×rule + 0.5×ml − (100 − raw_file_layout)/100, 0)`: the penalty is
computed from the raw 0–20 `file_layout` breakdown entry plugged into a
0–100 formula, so it always subtracts between 0.8 and 1.0 points (its
nominal 10-point cap never binds), and the grade is recomputed from the
fused score. -/
theorem mlFusedScore_amended :
    ∀ ruleScore mlScore fl : ℚ, 0 ≤ fl → fl ≤ 20 →
      mlFusedScore ruleScore mlScore fl =
        max (1/2 * ruleScore + 1/2 * mlScore - (100 - fl)/100) 0 ∧
      4/5 ≤ (100 - fl)/100 ∧ (100 - fl)/100 ≤ 1 ∧
      mlFusedGrade ruleScore mlScore fl = calculateGrade (mlFusedScore ruleScore mlScore fl) := by
  intro r m fl h0 h20
  refine ⟨?_, by linarith, by linarith, rfl⟩
  unfold mlFusedScore
  dsimp only
  rw [max_eq_right (by linarith : (0:ℚ) ≤ (100 - fl)/10),
    min_eq_left (by linarith : 1/10 * ((100 - fl)/10) ≤ (10:ℚ))]
  ring_nf

/-- Witness for `mlFusedScore_amended` at rule 80, ML 90, file layout 20. -/
theorem mlFusedScore_amended_witness :
    mlFusedScore 80 90 20 = max (1/2 * 80 + 1/2 * 90 - (100 - 20)/100) 0 ∧
    4/5 ≤ ((100 : ℚ) - 20)/100 ∧ ((100 : ℚ) - 20)/100 ≤ 1 ∧
    mlFusedGrade 80 90 20 = calculateGrade (mlFusedScore 80 90 20) :=
  mlFusedScore_amended 80 90 20 (by norm_num) (by norm_num)

/-- C10: `check_keyword_alignment` returns the full 15-point ceiling with
empty feedback and empty skill details whenever the JD text or the resume
text is empty, so an analysis without a JD is never penalised on keyword
alignment. -/
theorem keywordAlignment_full_credit :
    (∀ (isTech isSoft : String → Bool) (jdTerms : Option (List String)) (resume jd : String),
        jd = "" ∨ resume = "" →
        checkKeywordAlignment isTech isSoft jdTerms resume jd = (15, [], emptySkillDetails)) ∧
    (∀ i r, analyze i = .ok r → jdPresent i = false →
        r.breakdown.keyword_alignment = 15) := by
  constructor
  · intro _ _ _ _ _ h
    unfold checkKeywordAlignment
    rw [if_pos h]
  · intro i r hok hjd
    obtain ⟨g, fb, hg, hr⟩ := (analyze_ok_iff i r).mp hok
    subst hr
    have hjs : jdString i = "" := by
      unfold jdPresent at hjd
      unfold jdString
      rcases h : i.jd_text with _ | s
      · rfl
      · rw [h] at hjd
        simpa using hjd
    show (analyzeBreakdown i g).keyword_alignment = 15
    unfold analyzeBreakdown
    rw [hjs]
    unfold checkKeywordAlignment
    rw [if_pos (Or.inl rfl)]

/-- Witness for `keywordAlignment_full_credit` at a concrete resume with
an empty JD. -/
theorem keywordAlignment_full_credit_witness :
    checkKeywordAlignment (fun _ => true) (fun _ => false) none "resume text" "" =
      (15, [], emptySkillDetails) :=
  keywordAlignment_full_credit.1 (fun _ => true) (fun _ => false) none "resume text" ""
    (Or.inl rfl)

theorem matchSkillsLoop_mem (kb : String → List String → Bool) (fuzzy : String → String → ℚ)
    (th : ℚ) (rn : List String) (j : String) :
    ∀ (l : List String) (acc : List String × List String),
      (j ∈ acc.1 ∨ (j ∈ l ∧ isMatchSkill kb fuzzy th (normalizeSkill j) rn = true)) →
      j ∈ (matchSkillsLoop kb fuzzy th rn acc l).1 := by
  intro l
  induction l with
  | nil =>
    intro acc h
    rcases h with h | ⟨h, _⟩
    · exact h
    · cases h
  | cons x xs ih =>
    intro acc h
    show j ∈ (matchSkillsLoop kb fuzzy th rn _ xs).1
    apply ih
    rcases h with hacc | ⟨hmem, hmatch⟩
    · left
      dsimp only
      split_ifs with h1 h2
      · exact hacc
      · exact List.mem_append_left _ hacc
      · exact hacc
    · rcases List.mem_cons.mp hmem with rfl | hxs
      · left
        dsimp only
        rw [if_pos hmatch]
        split_ifs with h2
        · exact List.mem_of_elem_eq_true h2
        · exact List.mem_append_right _ (List.mem_singleton.mpr rfl)
      · right
        exact ⟨hxs, hmatch⟩

/-- C9: `match_skills` returns a 100.0 match percentage whenever the
required-skills list is empty; matching is case- and
whitespace-insensitive (`lower().strip()` normalisation), so
`match_skills(["Python "], ["python"])` reports `"python"` matched with
100%, and in general a required skill whose normal form equals that of any
resume skill is reported matched. -/
theorem matchSkills_trivial_and_normalized :
    (∀ (kb : String → List String → Bool) (fuzzy : String → String → ℚ) (th : ℚ)
        (resumeSkills : List String), matchSkills kb fuzzy th resumeSkills [] = ([], [], 100)) ∧
    (∀ (kb : String → List String → Bool) (fuzzy : String → String → ℚ) (th : ℚ),
        matchSkills kb fuzzy th ["Python "] ["python"] = (["python"], [], 100)) ∧
    (∀ (kb : String → List String → Bool) (fuzzy : String → String → ℚ) (th : ℚ)
        (rs js : List String) (r j : String), r ∈ rs → j ∈ js →
        normalizeSkill r = normalizeSkill j → j ∈ (matchSkills kb fuzzy th rs js).1) := by
  refine ⟨?_, ?_, ?_⟩
  · intro kb fuzzy th rs
    unfold matchSkills
    rw [if_pos rfl]
  · intro kb fuzzy th
    unfold matchSkills
    rw [if_neg (by decide)]
    dsimp only
    have hnorm : normalizeSkill "Python " = "python" := by decide
    have hmatch :
        isMatchSkill kb fuzzy th (normalizeSkill "python") (["Python "].map normalizeSkill) =
          true := by
      unfold isMatchSkill
      rw [if_pos (by decide)]
    show (let r := matchSkillsLoop kb fuzzy th (["Python "].map normalizeSkill) ([], []) ["python"]
      (r.1, r.2, (r.1.length : ℚ) / ([("python" : String)].length : ℕ) * 100)) =
        (["python"], [], 100)
    rw [show matchSkillsLoop kb fuzzy th (["Python "].map normalizeSkill) ([], []) ["python"] =
        (["python"], []) from by
      unfold matchSkillsLoop
      rw [if_pos hmatch]
      rfl]
    norm_num
  · intro kb fuzzy th rs js r j hr hj hnorm
    unfold matchSkills
    rw [if_neg (by rintro rfl; cases hj)]
    dsimp only
    apply matchSkillsLoop_mem
    right
    refine ⟨hj, ?_⟩
    unfold isMatchSkill
    rw [if_pos ?_]
    have : normalizeSkill j ∈ rs.map normalizeSkill := by
      rw [← hnorm]
      exact List.mem_map_of_mem normalizeSkill hr
    exact List.elem_eq_true_of_mem this

/-- Witness for `matchSkills_trivial_and_normalized`: the normalisation
clause applied to the documented example. -/
theorem matchSkills_trivial_and_normalized_witness :
    "python" ∈ (matchSkills (fun _ _ => false) (fun _ _ => 0) (4/5) ["Python "] ["python"]).1 :=
  matchSkills_trivial_and_normalized.2.2 (fun _ _ => false) (fun _ _ => 0) (4/5)
    ["Python "] ["python"] "Python " "python" (List.mem_singleton.mpr rfl)
    (List.mem_singleton.mpr rfl) (by decide)

/-- C1 (amended): every breakdown produced by `analyze` (with the cosine
similarity in [-1,1]) satisfies the fixed per-category ranges, except that
`career_progression` is only clamped to [0,10] by its checker and can
reach 7 (the +2 promotion bonus on top of the 5-point ceiling survives the
max-merge), and `semantic_fit` ranges over [-24, 24] rather than [0, 20]
(the ×1.2 keyword boost can push a perfect similarity to 24). -/
theorem analyze_breakdown_bounds_amended :
    ∀ i r, analyze i = .ok r → (∀ s, i.sim = some s → -1 ≤ s ∧ s ≤ 1) →
      AmendedBreakdownBounds r.breakdown := by
  intro i r hok hsim
  obtain ⟨g, fb, hg, hr⟩ := (analyze_ok_iff i r).mp hok
  subst hr
  show AmendedBreakdownBounds (analyzeBreakdown i g)
  obtain ⟨hg0, hg10⟩ := checkEmploymentGaps_ok_bounds hg
  unfold AmendedBreakdownBounds analyzeBreakdown
  dsimp only
  refine ⟨checkFileLayout_bounds _, checkFontConsistency_bounds _, checkReadability_bounds _,
    checkProfessionalLanguage_bounds _ _, checkDateConsistency_bounds _, ⟨hg0, hg10⟩,
    ⟨?_, ?_⟩, checkKeywordAlignment_bounds _ _ _ _ _, checkSkillContext_bounds _ _,
    checkSemanticFit_bounds _ _ _ _ _ hsim, ⟨?_, ?_⟩, checkOnlinePresence_bounds _⟩
  · exact le_max_of_le_left (checkCareerProgression_bounds _ _ _).1
  · refine max_le (checkCareerProgression_bounds _ _ _).2 ?_
    have h1 := (detectProgression_bounds i.work_history).2
    linarith
  · exact le_max_of_le_left (checkQuantifiedAchievements_bounds _ _).1
  · refine max_le (checkQuantifiedAchievements_bounds _ _).2 ?_
    have h1 := (quantifyImpact_bounds i.mlQuantMatches).2
    linarith

theorem calculateGrade_lt60 {s : ℚ} (h : s < 60) : calculateGrade s = "F" := by
  unfold calculateGrade
  rw [if_neg (by linarith), if_neg (by linarith), if_neg (by linarith), if_neg (by linarith)]

/-- C2: whenever a JD is present and the returned breakdown's semantic-fit
raw score is below 4 (of 20), the final score is capped at 30, the grade
is F, and the critical-mismatch message is prepended to the feedback; when
it is in [4, 7) the final score is capped at 50 and the warning message is
prepended. -/
theorem analyze_mismatch_override :
    ∀ i r, analyze i = .ok r → jdPresent i = true →
      (r.breakdown.semantic_fit < 4 →
        r.final_score ≤ 30 ∧ r.grade = "F" ∧
        r.feedback.head? = some criticalMismatchMsg) ∧
      (4 ≤ r.breakdown.semantic_fit → r.breakdown.semantic_fit < 7 →
        r.final_score ≤ 50 ∧ r.feedback.head? = some weakAlignmentMsg) := by
  intro i r hok hjd
  obtain ⟨g, fb, hg, hr⟩ := (analyze_ok_iff i r).mp hok
  subst hr
  constructor
  · intro hsem
    replace hsem : (analyzeBreakdown i g).semantic_fit < 4 := hsem
    have hcond : jdPresent i = true ∧ (analyzeBreakdown i g).semantic_fit < 4 := ⟨hjd, hsem⟩
    have hle : preRoundFinal i g ≤ 30 := by
      unfold preRoundFinal
      dsimp only
      rw [if_pos hcond]
      exact min_le_right _ _
    refine ⟨?_, ?_, ?_⟩
    · show pyRound1 (preRoundFinal i g) ≤ 30
      have h30 := pyRound1_le_int (preRoundFinal i g) 30 (by push_cast; linarith)
      push_cast at h30
      linarith
    · show calculateGrade (preRoundFinal i g) = "F"
      exact calculateGrade_lt60 (by linarith)
    · show (analyzeFeedback i g fb).head? = some criticalMismatchMsg
      unfold analyzeFeedback
      dsimp only
      rw [if_pos hcond]
      rfl
  · intro h4 h7
    replace h4 : (4:ℚ) ≤ (analyzeBreakdown i g).semantic_fit := h4
    replace h7 : (analyzeBreakdown i g).semantic_fit < 7 := h7
    have hnot : ¬(jdPresent i = true ∧ (analyzeBreakdown i g).semantic_fit < 4) := by
      rintro ⟨_, hc⟩
      linarith
    have hcond : jdPresent i = true ∧ (analyzeBreakdown i g).semantic_fit < 7 := ⟨hjd, h7⟩
    have hle : preRoundFinal i g ≤ 50 := by
      unfold preRoundFinal
      dsimp only
      rw [if_neg hnot, if_pos hcond]
      exact min_le_right _ _
    constructor
    · show pyRound1 (preRoundFinal i g) ≤ 50
      have h50 := pyRound1_le_int (preRoundFinal i g) 50 (by push_cast; linarith)
      push_cast at h50
      linarith
    · show (analyzeFeedback i g fb).head? = some weakAlignmentMsg
      unfold analyzeFeedback
      dsimp only
      rw [if_neg hnot, if_pos hcond]
      rfl

/-- C3 (amended): the weighted composite equals the claimed per-category
normalised weighted sum clamped to [0,100]; the grade bands hold for
`_calculate_grade`; and every result of `analyze` carries a final score in
[0,100] which is `round(score, 1)` of the capped composite, with the grade
computed from that same composite before rounding (so at a band edge the
rounded reported score can disagree with the grade's band by < 0.05). -/
theorem weightedScore_grade_and_bounds :
    (∀ b : Breakdown, calculateWeightedScore b =
      min 100 (max 0 (1/2 * (b.file_layout + b.font_consistency + b.readability +
        b.professional_language + b.date_consistency + b.employment_gaps +
        b.career_progression) + b.keyword_alignment + b.skill_context +
        5/4 * b.semantic_fit + 3/2 * b.quantified_impact + b.online_presence))) ∧
    (∀ s : ℚ, GradeBands s) ∧
    (∀ i r, analyze i = .ok r →
      (0 ≤ r.final_score ∧ r.final_score ≤ 100) ∧
      ∃ g fb, checkEmploymentGaps i.oracle i.now i.work_history = .ok (g, fb) ∧
        r.grade = calculateGrade (preRoundFinal i g) ∧
        r.final_score = pyRound1 (preRoundFinal i g)) := by
  refine ⟨?_, ?_, ?_⟩
  · intro b
    unfold calculateWeightedScore
    dsimp only
    congr 1
    congr 1
    ring
  · intro s
    unfold GradeBands
    refine ⟨⟨?_, ?_⟩, ⟨?_, ?_⟩, ⟨?_, ?_⟩, ⟨?_, ?_⟩, ⟨?_, ?_⟩⟩
    · intro h
      unfold calculateGrade at h
      split_ifs at h with h1 h2 h3 h4
      · exact h1
      all_goals exact absurd h (by decide)
    · intro h
      unfold calculateGrade
      rw [if_pos h]
    · intro h
      unfold calculateGrade at h
      split_ifs at h with h1 h2 h3 h4
      · exact absurd h (by decide)
      · exact ⟨h2, lt_of_not_le h1⟩
      all_goals exact absurd h (by decide)
    · rintro ⟨hb, ha⟩
      unfold calculateGrade
      rw [if_neg (not_le.mpr ha), if_pos hb]
    · intro h
      unfold calculateGrade at h
      split_ifs at h with h1 h2 h3 h4
      · exact absurd h (by decide)
      · exact absurd h (by decide)
      · exact ⟨h3, lt_of_not_le h2⟩
      all_goals exact absurd h (by decide)
    · rintro ⟨hc, hlt⟩
      unfold calculateGrade
      rw [if_neg (not_le.mpr (hlt.trans (by norm_num))), if_neg (not_le.mpr hlt), if_pos hc]
    · intro h
      unfold calculateGrade at h
      split_ifs at h with h1 h2 h3 h4
      · exact absurd h (by decide)
      · exact absurd h (by decide)
      · exact absurd h (by decide)
      · exact ⟨h4, lt_of_not_le h3⟩
      · exact absurd h (by decide)
    · rintro ⟨hd, hlt⟩
      unfold calculateGrade
      rw [if_neg (not_le.mpr (hlt.trans (by norm_num))),
        if_neg (not_le.mpr (hlt.trans (by norm_num))), if_neg (not_le.mpr hlt), if_pos hd]
    · intro h
      unfold calculateGrade at h
      split_ifs at h with h1 h2 h3 h4
      · exact absurd h (by decide)
      · exact absurd h (by decide)
      · exact absurd h (by decide)
      · exact absurd h (by decide)
      · exact lt_of_not_le h4
    · intro h
      exact calculateGrade_lt60 h
  · intro i r hok
    obtain ⟨g, fb, hg, hr⟩ := (analyze_ok_iff i r).mp hok
    subst hr
    have hb0 := (calculateWeightedScore_bounds (analyzeBreakdown i g)).1
    have hb100 := (calculateWeightedScore_bounds (analyzeBreakdown i g)).2
    have hpre0 : 0 ≤ preRoundFinal i g := by
      unfold preRoundFinal
      dsimp only
      split_ifs
      · exact le_min hb0 (by norm_num)
      · exact le_min hb0 (by norm_num)
      · exact hb0
    have hpre100 : preRoundFinal i g ≤ 100 := by
      unfold preRoundFinal
      dsimp only
      split_ifs
      · exact le_trans (min_le_left _ _) hb100
      · exact le_trans (min_le_left _ _) hb100
      · exact hb100
    refine ⟨⟨?_, ?_⟩, g, fb, hg, rfl, rfl⟩
    · show (0:ℚ) ≤ pyRound1 (preRoundFinal i g)
      have h := int_le_pyRound1 (preRoundFinal i g) 0 (by push_cast; linarith)
      push_cast at h
      linarith
    · show pyRound1 (preRoundFinal i g) ≤ 100
      have h := pyRound1_le_int (preRoundFinal i g) 100 (by push_cast; linarith)
      push_cast at h
      linarith

theorem gapCount_small (oracle : String → Option PyDate) (now : PyDate) (wh : List Job)
    (h : wh.length < 2) : gapCount oracle now wh = 0 := by
  rcases wh with _ | ⟨a, _ | ⟨b, t⟩⟩
  · rfl
  · rfl
  · simp at h
    omega

/-- C5: `check_employment_gaps` sorts the history by parsed start date,
collects the month gaps between consecutive end/start pairs (present/empty
end dates read as now), counts those exceeding six months, and returns
`10 − min(10, count × 3)` (the feedback names the count); on the concrete
two-job history with a single 14-month gap it returns 7 ≤ 7 with the
"1 employment gap(s) > 6 months" feedback. -/
theorem checkEmploymentGaps_formula :
    (∀ (oracle : String → Option PyDate) (now : PyDate) (wh : List Job),
      (∀ j ∈ wh, (parseDate oracle now j.start_date).isSome) →
      checkEmploymentGaps oracle now wh =
        .ok ((10 : ℚ) - ((min 10 (gapCount oracle now wh * 3) : ℕ) : ℚ),
          if 0 < gapCount oracle now wh then
            [toString (gapCount oracle now wh) ++ " employment gap(s) > 6 months detected"]
          else [])) ∧
    checkEmploymentGaps oracleCX nowCX whC5 =
      .ok (7, ["1 employment gap(s) > 6 months detected"]) ∧
    (7 : ℚ) ≤ 7 := by
  have hgen : ∀ (oracle : String → Option PyDate) (now : PyDate) (wh : List Job),
      (∀ j ∈ wh, (parseDate oracle now j.start_date).isSome) →
      checkEmploymentGaps oracle now wh =
        .ok ((10 : ℚ) - ((min 10 (gapCount oracle now wh * 3) : ℕ) : ℚ),
          if 0 < gapCount oracle now wh then
            [toString (gapCount oracle now wh) ++ " employment gap(s) > 6 months detected"]
          else []) := by
    intro oracle now wh h
    have hall : (wh.any fun j => (parseDate oracle now j.start_date).isNone) = false := by
      rw [List.any_eq_false]
      intro j hj
      have hs := h j hj
      rcases hp : parseDate oracle now j.start_date with _ | d
      · rw [hp] at hs
        simp at hs
      · simp
    unfold checkEmploymentGaps
    by_cases h1 : wh.length < 2
    · have h0 : gapCount oracle now wh = 0 := gapCount_small oracle now wh h1
      rw [if_pos h1, h0]
      norm_num
    · rw [if_neg h1, hall, if_neg (by simp : ¬(false = true))]
      dsimp only
      rw [show (gapList oracle now (sortedByStart oracle now wh)).length =
          gapCount oracle now wh from rfl]
      rcases Nat.eq_zero_or_pos (gapCount oracle now wh) with hz | hpos
      · rw [hz]
        norm_num
      · rw [if_pos hpos, if_pos hpos]
        have hmin : ((min 10 (gapCount oracle now wh * 3) : ℕ) : ℚ) ≤ 10 := by
          have := Nat.min_le_left 10 (gapCount oracle now wh * 3)
          exact_mod_cast this
        rw [max_eq_right (by linarith)]
  refine ⟨hgen, ?_, le_refl 7⟩
  rw [hgen oracleCX nowCX whC5 (by decide),
    show gapCount oracleCX nowCX whC5 = 1 from by decide]
  refine congrArg Except.ok (Prod.ext ?_ ?_)
  · norm_num
  · rw [if_pos (by norm_num : 0 < 1)]
    decide

/-- Witness for `checkEmploymentGaps_formula`: the general formula applied
to the concrete 14-month-gap history. -/
theorem checkEmploymentGaps_formula_witness :
    checkEmploymentGaps oracleCX nowCX whC5 =
      .ok ((10 : ℚ) - ((min 10 (gapCount oracleCX nowCX whC5 * 3) : ℕ) : ℚ),
        if 0 < gapCount oracleCX nowCX whC5 then
          [toString (gapCount oracleCX nowCX whC5) ++ " employment gap(s) > 6 months detected"]
        else []) :=
  checkEmploymentGaps_formula.1 oracleCX nowCX whC5 (by decide)

/-- C1 counterexample: the breakdown `analyze` produces on `inputC1` has
`career_progression = 7 > 5` (its table ceiling) and
`semantic_fit = 24 > 20` (its table ceiling). -/
theorem analyze_breakdown_bounds_cex :
    (analyze inputC1).map
        (fun r => (r.breakdown.career_progression, r.breakdown.semantic_fit)) =
      .ok (7, 24) ∧
    (5 : ℚ) < 7 ∧ (20 : ℚ) < 24 := by
  refine ⟨?_, by norm_num, by norm_num⟩
  set_option maxRecDepth 8000 in with_unfolding_all rfl

/-- Witness for `analyze_breakdown_bounds_amended` at `inputC1`. -/
theorem analyze_breakdown_bounds_amended_witness :
    AmendedBreakdownBounds resultC1.breakdown :=
  analyze_breakdown_bounds_amended inputC1 resultC1
    (by set_option maxRecDepth 8000 in with_unfolding_all rfl)
    (by
      intro s hs
      have h1 : inputC1.sim = some 1 := rfl
      rw [h1] at hs
      injection hs with h
      subst h
      constructor <;> norm_num)

/-- Witness for `analyze_mismatch_override` at `inputC2a` (semantic fit 0,
cap 30, grade F) and `inputC2b` (semantic fit 6, cap 50). -/
theorem analyze_mismatch_override_witness :
    (resultC2a.final_score ≤ 30 ∧ resultC2a.grade = "F" ∧
      resultC2a.feedback.head? = some criticalMismatchMsg) ∧
    (resultC2b.final_score ≤ 50 ∧ resultC2b.feedback.head? = some weakAlignmentMsg) := by
  constructor
  · refine (analyze_mismatch_override inputC2a resultC2a
      (by set_option maxRecDepth 8000 in with_unfolding_all rfl)
      (by with_unfolding_all rfl)).1 ?_
    rw [show resultC2a.breakdown.semantic_fit = 0 from by
      set_option maxRecDepth 8000 in with_unfolding_all rfl]
    norm_num
  · refine (analyze_mismatch_override inputC2b resultC2b
      (by set_option maxRecDepth 8000 in with_unfolding_all rfl)
      (by with_unfolding_all rfl)).2 ?_ ?_ <;>
      rw [show resultC2b.breakdown.semantic_fit = 6 from by
        set_option maxRecDepth 8000 in with_unfolding_all rfl] <;>
      norm_num

/-- C3 counterexample: on `inputC3` the composite is 89.96, so the
reported final score is the rounded 90.0 while the grade (computed from
the unrounded composite) is B — the reported score sits in the A band with
a non-A grade. -/
theorem weightedScore_grade_rounding_cex :
    (analyze inputC3).map (fun r => (r.final_score, r.grade)) = .ok (90, "B") ∧
    (90 : ℚ) ≥ 90 ∧ ("B" : String) ≠ "A" := by
  refine ⟨?_, by norm_num, by decide⟩
  set_option maxRecDepth 8000 in with_unfolding_all rfl

/-- Witness for `weightedScore_grade_and_bounds` at `inputC3`. -/
theorem weightedScore_grade_and_bounds_witness :
    (0 ≤ resultC3.final_score ∧ resultC3.final_score ≤ 100) ∧
    ∃ g fb, checkEmploymentGaps inputC3.oracle inputC3.now inputC3.work_history = .ok (g, fb) ∧
      resultC3.grade = calculateGrade (preRoundFinal inputC3 g) ∧
      resultC3.final_score = pyRound1 (preRoundFinal inputC3 g) :=
  weightedScore_grade_and_bounds.2.2 inputC3 resultC3
    (by set_option maxRecDepth 8000 in with_unfolding_all rfl)

/-- C6: on a two-job history whose date strings dateutil cannot parse,
`check_employment_gaps` aborts with the modelled `TypeError` (the sort key
is Python `None`), while the total-years computation returns 0 normally
(unparseable dates contribute nothing there). -/
theorem employmentGaps_unparseable_dates_raise :
    checkEmploymentGaps noParseOracle nowCX whC6 =
      .error "TypeError: NoneType sort key is unorderable" ∧
    calculateTotalYears noParseOracle nowCX whC6 = 0 :=
  ⟨by with_unfolding_all rfl, by with_unfolding_all rfl⟩

/-- C8: on two stints at the same company with the identical title, the
source's promotion counter fires (`+2`, score 7) although no distinct
second title exists; the spec-modelled distinct-title variant scores 5. -/
theorem careerProgression_duplicate_title_promotion :
    (checkCareerProgression oracleCX nowCX whC8).1 = 7 ∧
    (careerProgressionSpec oracleCX nowCX whC8).1 = 5 ∧
    whC8.map Job.title = ["senior dev", "senior dev"] ∧
    whC8.map Job.company = ["acme", "acme"] :=
  ⟨by with_unfolding_all rfl, by with_unfolding_all rfl, by decide, by decide⟩
